import Mathlib

/-!
Verification of `plot_results.py`, the report script of the
modelica-tankless-boiler repository.

The script is embedded shallowly:

* numeric series are `List ℚ` (Python floats are modelled as exact rationals);
* a Python expression that may raise is modelled as an `Option`, `none`
  standing for the raised exception; a function that catches all exceptions
  and recovers is total;
* the DyMat file handle `dm` is a `DataSource` record of the three operations
  the script uses: `data` (value series by name, may raise), `abscissa`
  (time abscissa of a variable, may raise; the script only ever uses the
  first component of the returned tuple, so we model that component
  directly), and `names` (the listed variable names);
* numpy reductions `np.max` (raises on an empty array) and `np.mean` are
  `npMax` and `npMean`.
-/

set_option autoImplicit false

namespace PlotResults

/-- Converter `kelvin_to_fahrenheit` (plot_results.py, lines 12-14). -/
def kelvin_to_fahrenheit (k : ℚ) : ℚ := (k - 273.15) * 9 / 5 + 32

/-- Converter `pascal_to_psi` (plot_results.py, lines 16-18). -/
def pascal_to_psi (pa : ℚ) : ℚ := pa / 6894.76

/-- Converter `watts_to_kbtu` (plot_results.py, lines 20-22). -/
def watts_to_kbtu (w : ℚ) : ℚ := w * 3600 / (1000 * 1055.06)

/-- Modelled from the spec: the source file has no `fahrenheit_to_kelvin`
converter (spec section 8 names it only as the inverse used in the round-trip
property), so it is taken from the spec formula as the exact inverse of
`kelvin_to_fahrenheit(k) = (k - 273.15) * 9/5 + 32`. -/
def fahrenheit_to_kelvin (f : ℚ) : ℚ := (f - 32) * 5 / 9 + 273.15

/-- The DyMat file handle, restricted to the operations used by the script.
`none` models a raised exception. -/
structure DataSource where
  data : String → Option (List ℚ)
  abscissa : String → Option (List ℚ)
  names : List String

/-- Numpy `np.max` raises `ValueError` on an empty array, hence `Option`. -/
def npMax : List ℚ → Option ℚ
  | [] => none
  | x :: xs => some (xs.foldl max x)

/-- Numpy `np.mean`; on the empty array numpy yields `nan` without raising, which
never occurs on the guarded call sites of the script, so the junk value of
division by zero is adequate there. -/
def npMean (l : List ℚ) : ℚ := l.sum / (l.length : ℚ)

/-- The nested helper `get_var` (plot_results.py, lines 52-57): look the name
up, catching every exception; on failure print one warning and return `None`.
The second component collects the warnings printed by the call. -/
def get_var (dm : DataSource) (name : String) : Option (List ℚ) × List String :=
  match dm.data name with
  | some v => (some v, [])
  | none => (none, ["Warning: Variable " ++ name ++ " not found in results"])

/-- Time-base resolution (plot_results.py, lines 34-47): try the abscissa of
`boiler.Q_actual`; on any exception fall back to the abscissa of the
first-listed variable (`dm.names()[0]` itself raises when the name list is
empty, caught by the same handler); abort (`none`) when both attempts fail or
the resulting vector is empty. -/
def resolveTimeBase (dm : DataSource) : Option (List ℚ) :=
  let t? : Option (List ℚ) :=
    match dm.abscissa "boiler.Q_actual" with
    | some t => some t
    | none =>
      match dm.names with
      | [] => none
      | n :: _ => dm.abscissa n
  match t? with
  | none => none
  | some t => if t = [] then none else some t

/-- The set of signals the script resolves (plot_results.py, lines 59-78 for
the `get_var` calls, and the four names it reads through bare `dm.data` calls
inside `try` blocks: lines 87, 109-110, 173-174), together with the resolved
time vector. `none` is the `Missing` value. -/
structure Env where
  time : List ℚ
  boiler_Q : Option (List ℚ)
  boiler_Q_modulated : Option (List ℚ)
  boiler_modulation_percent : Option (List ℚ)
  boiler_T_inlet : Option (List ℚ)
  boiler_T_outlet : Option (List ℚ)
  boiler_m_flow : Option (List ℚ)
  boiler_T_setpoint : Option (List ℚ)
  boiler_high_limit : Option (List ℚ)
  baseboard_supply_T : Option (List ℚ)
  baseboard_heat_loss : Option (List ℚ)
  baseboard_inlet_T : Option (List ℚ)
  baseboard_outlet_T : Option (List ℚ)
  room_T : Option (List ℚ)
  secondary_pump_m_flow : Option (List ℚ)
  q_min : Option (List ℚ)
  q_max : Option (List ℚ)
  primary_pump_speed : Option (List ℚ)
  secondary_pump_speed : Option (List ℚ)
  deriving DecidableEq

/-- How the script fills the environment from the data source (plot_results.py,
lines 59-78 via `get_var`, plus the names read directly by `dm.data` inside
`try` blocks). -/
def resolveEnv (dm : DataSource) (time : List ℚ) : Env :=
  { time := time
  , boiler_Q := (get_var dm "boiler.Q_actual").1
  , boiler_Q_modulated := (get_var dm "boiler.Q_modulated_kBTU").1
  , boiler_modulation_percent := (get_var dm "boiler.modulationPercent").1
  , boiler_T_inlet := (get_var dm "boiler.T_inlet").1
  , boiler_T_outlet := (get_var dm "boiler.T_outlet").1
  , boiler_m_flow := (get_var dm "boiler.m_flow").1
  , boiler_T_setpoint := (get_var dm "boiler.modulationController.T_setpoint").1
  , boiler_high_limit := (get_var dm "boiler.highLimitController.T_max").1
  , baseboard_supply_T := (get_var dm "baseboardSupplyTempSensor.T").1
  , baseboard_heat_loss := (get_var dm "baseboardHeatLoss.Q_flow").1
  , baseboard_inlet_T := (get_var dm "baseboardPiping.mediums[1].T").1
  , baseboard_outlet_T := (get_var dm "baseboardPiping.mediums[10].T").1
  , room_T := (get_var dm "roomAir.T").1
  , secondary_pump_m_flow := (get_var dm "secondaryPump.m_flow").1
  , q_min := dm.data "boiler.modulationController.Q_min"
  , q_max := dm.data "boiler.modulationController.Q_max"
  , primary_pump_speed := dm.data "boiler.primaryPump.N"
  , secondary_pump_speed := dm.data "secondaryPump.N" }

/-- Terminal state of one chart region of the 3x2 grid. `rendered` records the
plotted labelled curves and the horizontal reference lines (`axhline`) with
their constant height; `placeholder` records the explanatory `ax.text` label;
`blank` is an `if` body skipped with no `else`; `off` is `ax.axis` turned off
(the reserved sixth region). -/
inductive PanelOutcome where
  | rendered (curves : List (String × List ℚ)) (refLines : List (String × ℚ))
  | placeholder (label : String)
  | blank
  | off
  deriving DecidableEq

/-- Panel 1, boiler heat output (plot_results.py, lines 95-132). The Q_min and
Q_max reference lines are drawn only when both `dm.data` reads and both `[0]`
indexings succeed, the whole block being one `try` whose handler drops both
lines (lines 107-114). The modulated output and the modulation-percent overlay
are optional curves. -/
def heatOutputPanel (env : Env) : PanelOutcome :=
  match env.boiler_Q with
  | none => .blank
  | some q =>
    let refs : List (String × ℚ) :=
      match env.q_min >>= List.head?, env.q_max >>= List.head? with
      | some a, some b => [("Q_min", watts_to_kbtu a), ("Q_max", watts_to_kbtu b)]
      | _, _ => []
    let curves : List (String × List ℚ) :=
      [("Actual Output (kBTU/h)", q.map watts_to_kbtu)]
        ++ (match env.boiler_Q_modulated with
            | some m => [("Desired Output", m)]
            | none => [])
        ++ (match env.boiler_modulation_percent with
            | some p => [("Modulation %", p)]
            | none => [])
    .rendered curves refs

/-- The dynamic setpoint reference line of panel 2 (plot_results.py, lines
140-142): drawn at the first sample when the signal is present; the `[0]`
indexing is outside any `try`, so a present-but-empty series raises (`none`). -/
def setpointRefs (env : Env) : Option (List (String × ℚ)) :=
  match env.boiler_T_setpoint with
  | none => some []
  | some l =>
    match l.head? with
    | none => none
    | some v => some [("Setpoint", kelvin_to_fahrenheit v)]

/-- The high-limit reference line of panel 2 (plot_results.py, lines 143-145),
analogous to `setpointRefs`. -/
def highLimitRefs (env : Env) : Option (List (String × ℚ)) :=
  match env.boiler_high_limit with
  | none => some []
  | some l =>
    match l.head? with
    | none => none
    | some v => some [("High Limit", kelvin_to_fahrenheit v)]

/-- Panel 2, boiler temperatures (plot_results.py, lines 134-150). Rendered
only when both inlet and outlet resolved, otherwise the `if` body is skipped
and the region stays blank; the optional reference lines may raise. -/
def boilerTempPanel (env : Env) : Option PanelOutcome :=
  match env.boiler_T_inlet, env.boiler_T_outlet with
  | some ti, some tout =>
    match setpointRefs env, highLimitRefs env with
    | some a, some b =>
      some (.rendered
        [("Inlet", ti.map kelvin_to_fahrenheit), ("Outlet", tout.map kelvin_to_fahrenheit)]
        (a ++ b))
    | _, _ => none
  | _, _ => some .blank

/-- One operand of `max_gpm` of panel 3 (plot_results.py, lines 167-168): the
maximum of a GPM-converted flow series, the literal `0` when the series is
absent, a raised exception (`none`) when present but empty. -/
def gpmMaxOf : Option (List ℚ) → Option ℚ
  | none => some 0
  | some l => npMax (l.map (fun x => x * 15.85))

/-- Value `max_gpm` of panel 3 (plot_results.py, lines 166-168): the maximum over
the per-series maxima of the GPM-converted flow series; only computed when at
least one flow series is present. -/
def flowMaxGpm (env : Env) : Option ℚ :=
  match env.boiler_m_flow, env.secondary_pump_m_flow with
  | none, none => none
  | mf, sf =>
    match gpmMaxOf mf, gpmMaxOf sf with
    | some a, some b => some (max a b)
    | _, _ => none

/-- The upper y-bound of panel 3 (plot_results.py, line 169):
`max_gpm * 1.2 if max_gpm > 0 else 10`. -/
def flowTop (env : Env) : Option ℚ :=
  (flowMaxGpm env).map (fun m => if m > 0 then m * 1.2 else 10)

/-- The upper bound of the pump-speed overlay scale (plot_results.py, lines
172-181): computed inside a `try` requiring both pump-speed reads and both
`np.max` calls to succeed; `max_speed * 1.2 if max_speed > 0 else 1000`. -/
def pumpSpeedTop (env : Env) : Option ℚ :=
  match env.primary_pump_speed, env.secondary_pump_speed with
  | some p, some s =>
    match npMax p, npMax s with
    | some mp, some ms => some (if max mp ms > 0 then max mp ms * 1.2 else 1000)
    | _, _ => none
  | _, _ => none

/-- The pump-speed overlay curves of panel 3 (plot_results.py, lines 172-177);
drawn only when both reads succeed. -/
def pumpOverlayCurves (env : Env) : Option (List (String × List ℚ)) :=
  match env.primary_pump_speed, env.secondary_pump_speed with
  | some p, some s => some [("Primary Pump", p), ("Secondary Pump", s)]
  | _, _ => none

/-- Panel 3, flow rates and pump speeds (plot_results.py, lines 152-187).
Blank when neither flow series is present; `np.max` of a present-but-empty
flow series raises uncaught (`none`); the pump overlay degrades silently. -/
def flowPanel (env : Env) : Option PanelOutcome :=
  match env.boiler_m_flow, env.secondary_pump_m_flow with
  | none, none => some .blank
  | _, _ =>
    match flowTop env with
    | none => none
    | some _ =>
      some (.rendered
        ((match env.boiler_m_flow with
          | some l => [("Primary Loop", l.map (fun x => x * 15.85))]
          | none => [])
          ++ (match env.secondary_pump_m_flow with
              | some l => [("Secondary Loop", l.map (fun x => x * 15.85))]
              | none => [])
          ++ (match pumpOverlayCurves env with
              | some cs => cs
              | none => []))
        [])

/-- Panel 4, baseboard heat loss (plot_results.py, lines 189-203): the only
panel with an explicit placeholder branch. -/
def heatLossPanel (env : Env) : PanelOutcome :=
  match env.baseboard_heat_loss with
  | some hl => .rendered [("Heat to House", hl.map (fun w => w * 3600 / (1000 * 1055.06)))] []
  | none => .placeholder "Baseboard heat loss data not available"

/-- The optional room-temperature curve of panel 5 (plot_results.py, lines
210-211 and 219-220). -/
def roomCurve (env : Env) : List (String × List ℚ) :=
  match env.room_T with
  | some r => [("Room Temp", r.map kelvin_to_fahrenheit)]
  | none => []

/-- Panel 5, baseboard and room temperatures (plot_results.py, lines 205-225):
inlet and outlet node temperatures when both resolved, else the supply-sensor
temperature, else blank; room temperature added to either variant when
present. -/
def baseboardTempPanel (env : Env) : PanelOutcome :=
  match env.baseboard_inlet_T, env.baseboard_outlet_T with
  | some bi, some bo =>
    .rendered
      ([("Baseboard Inlet", bi.map kelvin_to_fahrenheit),
        ("Baseboard Outlet", bo.map kelvin_to_fahrenheit)] ++ roomCurve env)
      []
  | _, _ =>
    match env.baseboard_supply_T with
    | some s => .rendered (("Baseboard Supply", s.map kelvin_to_fahrenheit) :: roomCurve env) []
    | none => .blank

/-- The six chart regions of the 3x2 grid, in reading order (plot_results.py,
lines 81 and 95-229). `none` models an exception raised while composing a
panel, which aborts the whole script. -/
def panelGrid (env : Env) : Option (List PanelOutcome) :=
  match boilerTempPanel env, flowPanel env with
  | some p2, some p3 =>
    some [heatOutputPanel env, p2, p3, heatLossPanel env, baseboardTempPanel env, .off]
  | _, _ => none

/-- One line of the printed summary block (plot_results.py, lines 242-299).
Each constructor is one `print` of a labelled value; the carried rational is
the exact value the script formats. Group headers and the rule lines are
fixed text determined by which groups print, so they are not repeated here. -/
inductive SLine where
  | simTime (hours seconds : ℚ)
  | boilerAvgHeat (v : ℚ)
  | boilerMaxHeat (v : ℚ)
  | boilerAvgInlet (v : ℚ)
  | boilerAvgOutlet (v : ℚ)
  | boilerDeltaT (v : ℚ)
  | bbAvgInlet (v : ℚ)
  | bbAvgOutlet (v : ℚ)
  | bbDeltaT (v : ℚ)
  | bbSupplyAvg (v : ℚ)
  | bbSupplyFinal (v : ℚ)
  | bbHeatLoss (v : ℚ)
  | roomStart (v : ℚ)
  | roomEnd (v : ℚ)
  | roomRise (v : ℚ)
  | flowPrimary (v : ℚ)
  | flowSecondary (v : ℚ)
  deriving DecidableEq

/-- Boiler heat-output summary group (plot_results.py, lines 247-252);
`np.max` raises on an empty present series. -/
def heatGroup (env : Env) : Option (List SLine) :=
  match env.boiler_Q with
  | none => some []
  | some q =>
    match npMax q with
    | none => none
    | some m =>
      some [SLine.boilerAvgHeat (watts_to_kbtu (npMean q)),
            SLine.boilerMaxHeat (watts_to_kbtu m)]

/-- Boiler temperature summary group (plot_results.py, lines 254-260): all
three lines require both inlet and outlet to be present. -/
def boilerTempGroup (env : Env) : List SLine :=
  match env.boiler_T_inlet, env.boiler_T_outlet with
  | some ti, some tout =>
    [SLine.boilerAvgInlet (kelvin_to_fahrenheit (npMean ti)),
     SLine.boilerAvgOutlet (kelvin_to_fahrenheit (npMean tout)),
     SLine.boilerDeltaT (kelvin_to_fahrenheit (npMean tout) - kelvin_to_fahrenheit (npMean ti))]
  | _, _ => []

/-- Baseboard temperature summary group (plot_results.py, lines 262-274):
inlet/outlet averages and delta when both node temperatures are present, else
the supply-sensor average and final value (`[-1]` raises on an empty present
series), else nothing. -/
def baseboardTempGroup (env : Env) : Option (List SLine) :=
  match env.baseboard_inlet_T, env.baseboard_outlet_T with
  | some bi, some bo =>
    some [SLine.bbAvgInlet (kelvin_to_fahrenheit (npMean bi)),
          SLine.bbAvgOutlet (kelvin_to_fahrenheit (npMean bo)),
          SLine.bbDeltaT (kelvin_to_fahrenheit (npMean bi) - kelvin_to_fahrenheit (npMean bo))]
  | _, _ =>
    match env.baseboard_supply_T with
    | none => some []
    | some s =>
      match s.getLast? with
      | none => none
      | some slast =>
        some [SLine.bbSupplyAvg (kelvin_to_fahrenheit (npMean s)),
              SLine.bbSupplyFinal (kelvin_to_fahrenheit slast)]

/-- Baseboard heat-to-room summary group (plot_results.py, lines 276-280);
the conversion is written inline in the source, not via `watts_to_kbtu`. -/
def heatLossGroup (env : Env) : List SLine :=
  match env.baseboard_heat_loss with
  | some hl => [SLine.bbHeatLoss (npMean hl * 3600 / (1000 * 1055.06))]
  | none => []

/-- Room temperature summary group (plot_results.py, lines 282-288); `[0]` and
`[-1]` raise on an empty present series. -/
def roomGroup (env : Env) : Option (List SLine) :=
  match env.room_T with
  | none => some []
  | some r =>
    match r.head?, r.getLast? with
    | some r0, some rl =>
      some [SLine.roomStart (kelvin_to_fahrenheit r0),
            SLine.roomEnd (kelvin_to_fahrenheit rl),
            SLine.roomRise (kelvin_to_fahrenheit rl - kelvin_to_fahrenheit r0)]
    | _, _ => none

/-- Flow-rate summary lines (plot_results.py, lines 290-297). -/
def flowGroup (env : Env) : List SLine :=
  (match env.boiler_m_flow with
   | some f => [SLine.flowPrimary (npMean f * 15.85)]
   | none => []) ++
  (match env.secondary_pump_m_flow with
   | some f => [SLine.flowSecondary (npMean f * 15.85)]
   | none => [])

/-- The full summary block (plot_results.py, lines 242-299): the simulated
duration (`time[-1]` raises on an empty time vector) followed by the metric
groups in source order. -/
def summaryLines (env : Env) : Option (List SLine) :=
  match env.time.getLast? with
  | none => none
  | some tLast =>
    match heatGroup env, baseboardTempGroup env, roomGroup env with
    | some hg, some bg, some rg =>
      some (SLine.simTime (tLast / 3600) tLast ::
        hg ++ boilerTempGroup env ++ bg ++ heatLossGroup env ++ rg ++ flowGroup env)
    | _, _, _ => none

/-- Python `str.replace(pat, rep)` on character lists: scan left to right,
replacing every non-overlapping occurrence. The fuel argument (always started
at the length of the list, which one unit per consumed character makes
sufficient) only makes the recursion structural. With `pat = []` this is the
identity, which differs from Python on the empty pattern; the script only
instantiates `pat` with `".mat"`. -/
def pyReplaceAux (pat rep : List Char) : Nat → List Char → List Char
  | 0, l => l
  | _ + 1, [] => []
  | fuel + 1, c :: rest =>
    if pat ≠ [] ∧ pat.isPrefixOf (c :: rest) then
      rep ++ pyReplaceAux pat rep fuel ((c :: rest).drop pat.length)
    else
      c :: pyReplaceAux pat rep fuel rest

/-- Python `s.replace(pat, rep)`. -/
def pyReplace (pat rep l : List Char) : List Char :=
  pyReplaceAux pat rep l.length l

/-- Output artifact path (plot_results.py, line 234):
`mat_file.replace(".mat", "_plots.png")`. -/
def output_file (matFile : String) : String :=
  String.mk (pyReplace ".mat".data "_plots.png".data matFile.data)

/-- The figure subtitle (plot_results.py, lines 85-93): the setpoint read
through a fresh `dm.data` call plus `[0]`, any failure caught and degraded to
the timestamp-only variant; the conversion is inline in the source. -/
inductive Subtitle where
  | withSetpoint (setpointF : ℚ) (generated : String)
  | plain (generated : String)
  deriving DecidableEq

/-- Subtitle resolution (plot_results.py, lines 85-93). -/
def subtitleOf (env : Env) (timestamp : String) : Subtitle :=
  match env.boiler_T_setpoint >>= List.head? with
  | some v => .withSetpoint ((v - 273.15) * 9 / 5 + 32) timestamp
  | none => .plain timestamp

/-- The artifacts of one run of `plot_results` after signal resolution: the
figure subtitle (the only place the wall-clock timestamp reaches), the panel
grid, the saved image path, and the printed summary. -/
structure Report where
  subtitle : Subtitle
  panels : Option (List PanelOutcome)
  outputPath : String
  summary : Option (List SLine)

/-- Report composition (plot_results.py, lines 80-299) from the resolved
environment, the input path and the `datetime.now()` timestamp. -/
def composeReport (matFile : String) (env : Env) (timestamp : String) : Report :=
  { subtitle := subtitleOf env timestamp
  , panels := panelGrid env
  , outputPath := output_file matFile
  , summary := summaryLines env }

/-- An environment with no resolved signal and an empty time vector. -/
def env0 : Env :=
  { time := []
  , boiler_Q := none
  , boiler_Q_modulated := none
  , boiler_modulation_percent := none
  , boiler_T_inlet := none
  , boiler_T_outlet := none
  , boiler_m_flow := none
  , boiler_T_setpoint := none
  , boiler_high_limit := none
  , baseboard_supply_T := none
  , baseboard_heat_loss := none
  , baseboard_inlet_T := none
  , baseboard_outlet_T := none
  , room_T := none
  , secondary_pump_m_flow := none
  , q_min := none
  , q_max := none
  , primary_pump_speed := none
  , secondary_pump_speed := none }

/-- A data source on which every lookup raises. -/
def dmEmpty : DataSource :=
  { data := fun _ => none, abscissa := fun _ => none, names := [] }

/-- A data source whose primary signal and first-listed variable have no
abscissa while the second-listed variable has a non-empty one. -/
def dmLate : DataSource :=
  { data := fun _ => none
  , abscissa := fun n => if n = "b" then some [1, 2] else none
  , names := ["a", "b"] }

/-- A data source where only the first-listed variable has an abscissa. -/
def dmFallback : DataSource :=
  { data := fun _ => none
  , abscissa := fun n => if n = "a" then some [5] else none
  , names := ["a"] }

/-- Scenario of claim C1: boiler inlet temperature resolved, outlet missing. -/
def envInletOnly : Env :=
  { env0 with time := [3600], boiler_T_inlet := some [300] }

/-- An environment whose boiler temperatures, reference constants, heat output
and modulation bounds are all resolved (single-sample series). -/
def envRefConsts : Env :=
  { env0 with
      time := [3600]
    , boiler_Q := some [5000]
    , boiler_T_inlet := some [310]
    , boiler_T_outlet := some [320]
    , boiler_T_setpoint := some [322]
    , boiler_high_limit := some [355]
    , q_min := some [2000]
    , q_max := some [10000] }

/-- An environment with both flow series present and all samples negative. -/
def envNegativeFlow : Env :=
  { env0 with
      time := [3600]
    , boiler_m_flow := some [-1]
    , secondary_pump_m_flow := some [-2] }

/-- An environment with a strictly positive primary flow sample and both pump
speeds resolved. -/
def envPositiveFlow : Env :=
  { env0 with
      time := [3600]
    , boiler_m_flow := some [1]
    , primary_pump_speed := some [2000]
    , secondary_pump_speed := some [1500] }

/-- Scenario of claim C7: inlet resolved, outlet missing, nothing else. -/
def envSummaryInletOnly : Env :=
  { env0 with time := [3600], boiler_T_inlet := some [300] }

/-- Inlet resolved, outlet missing, baseboard heat loss resolved. -/
def envSummaryHeatLoss : Env :=
  { env0 with
      time := [3600]
    , boiler_T_inlet := some [300]
    , baseboard_heat_loss := some [2] }

/-- Both baseboard node temperatures and the room temperature resolved. -/
def envBaseboardNodes : Env :=
  { env0 with
      time := [3600]
    , baseboard_inlet_T := some [330]
    , baseboard_outlet_T := some [325]
    , room_T := some [294] }

/-- C5: composing the Kelvin-to-Fahrenheit converter with the
Fahrenheit-to-Kelvin converter returns the argument, both on a scalar and
element-wise on a sequence (exactly, hence within any floating tolerance). -/
theorem c5_converter_roundtrip :
    (∀ k : ℚ, fahrenheit_to_kelvin (kelvin_to_fahrenheit k) = k) ∧
    (∀ l : List ℚ, (l.map kelvin_to_fahrenheit).map fahrenheit_to_kelvin = l) := by
  have h : ∀ k : ℚ, fahrenheit_to_kelvin (kelvin_to_fahrenheit k) = k := by
    intro k
    unfold fahrenheit_to_kelvin kelvin_to_fahrenheit
    ring
  refine ⟨h, fun l => ?_⟩
  induction l with
  | nil => rfl
  | cons a t ih => simp [h a, ih]

/-- C2: signal resolution is total at its boundary: when the underlying lookup
raises, `get_var` returns the distinct `none` (not an empty sequence) and
prints exactly one warning, and no exception escapes (the function is total by
construction). -/
theorem c2_resolution_total (dm : DataSource) (name : String)
    (h : dm.data name = none) :
    get_var dm name =
      (none, ["Warning: Variable " ++ name ++ " not found in results"]) ∧
    (get_var dm name).2.length = 1 := by
  simp [get_var, h]

/-- C2 witness: on a data source where every lookup raises, resolving
`boiler.T_outlet` yields `none` with its single warning. -/
theorem c2_witness :
    get_var dmEmpty "boiler.T_outlet" =
      (none, ["Warning: Variable " ++ "boiler.T_outlet" ++ " not found in results"]) :=
  (c2_resolution_total dmEmpty "boiler.T_outlet" rfl).1

/-- C3 counterexample: the claim says resolution succeeds whenever the primary
name is absent but another variable has a non-empty abscissa; on `dmLate` the
primary abscissa raises, the second-listed variable `b` has the non-empty
abscissa `[1, 2]`, yet resolution aborts, because the code only ever tries the
first-listed variable. -/
theorem c3_counterexample :
    dmLate.abscissa "boiler.Q_actual" = none ∧
    "b" ∈ dmLate.names ∧
    dmLate.abscissa "b" = some [1, 2] ∧
    ([1, 2] : List ℚ) ≠ [] ∧
    resolveTimeBase dmLate = none := by
  decide

/-- C3 (amended): the fallback chain tries the primary abscissa, then, only on
a raised primary lookup, the abscissa of the first-listed variable; it aborts
when both fail or the obtained vector is empty, and succeeds via the fallback
exactly when the first-listed variable (no later one) has a non-empty
abscissa. -/
theorem c3_time_base_chain (dm : DataSource) :
    (∀ t, dm.abscissa "boiler.Q_actual" = some t →
        resolveTimeBase dm = if t = [] then none else some t) ∧
    (dm.abscissa "boiler.Q_actual" = none → dm.names = [] →
        resolveTimeBase dm = none) ∧
    (∀ n rest, dm.abscissa "boiler.Q_actual" = none → dm.names = n :: rest →
        (dm.abscissa n = none → resolveTimeBase dm = none) ∧
        (∀ t, dm.abscissa n = some t →
            resolveTimeBase dm = if t = [] then none else some t)) := by
  refine ⟨?_, ?_, ?_⟩
  · intro t ht
    simp [resolveTimeBase, ht]
  · intro h1 h2
    simp [resolveTimeBase, h1, h2]
  · intro n rest h1 h2
    refine ⟨fun hn => ?_, fun t ht => ?_⟩
    · simp [resolveTimeBase, h1, h2, hn]
    · simp [resolveTimeBase, h1, h2, ht]

/-- C3 witness: on `dmFallback` the primary lookup raises, the first-listed
variable `a` has the non-empty abscissa `[5]`, and resolution returns it. -/
theorem c3_witness : resolveTimeBase dmFallback = some [5] := by
  have h := ((c3_time_base_chain dmFallback).2.2 "a" [] (by decide) rfl).2 [5] (by decide)
  simpa using h

/-- C8: the summary and the derived output path of the composed report are
functions of the input path and the resolved data alone: two runs on identical
resolved data, even at different wall-clock timestamps (which do reach the
figure subtitle), produce identical summaries and the same output path. -/
theorem c8_two_run_determinism (matFile : String) (env : Env) (t1 t2 : String) :
    (composeReport matFile env t1).summary = (composeReport matFile env t2).summary ∧
    (composeReport matFile env t1).outputPath = (composeReport matFile env t2).outputPath :=
  ⟨rfl, rfl⟩

/-- C1 counterexample: with `boiler.T_inlet` resolved and `boiler.T_outlet`
missing, the boiler-temperature panel ends in the third terminal state
`blank` (the `if` body of lines 136-150 is skipped and there is no `else`):
no explanatory label is printed, contradicting the claim that every panel
ends either `rendered` or `placeholder`. -/
theorem c1_counterexample :
    envInletOnly.boiler_T_inlet = some [300] ∧
    envInletOnly.boiler_T_outlet = none ∧
    boilerTempPanel envInletOnly = some PanelOutcome.blank ∧
    boilerTempPanel envInletOnly ≠
      some (PanelOutcome.placeholder "Baseboard heat loss data not available") := by
  decide

/-- C1 (amended): a panel with missing required signals never aborts the
report but only the baseboard heat-loss panel degrades to a placeholder with
an explanatory label; the boiler-temperature panel is left blank (never a
placeholder), though every panel still occupies its position in the
six-region grid. -/
theorem c1_panel_terminal_states (env : Env) :
    (heatLossPanel env = PanelOutcome.placeholder "Baseboard heat loss data not available"
        ↔ env.baseboard_heat_loss = none) ∧
    (∀ s, boilerTempPanel env ≠ some (PanelOutcome.placeholder s)) ∧
    ((env.boiler_T_inlet = none ∨ env.boiler_T_outlet = none) →
        boilerTempPanel env = some PanelOutcome.blank) ∧
    (∀ g, panelGrid env = some g → g.length = 6) := by
  refine ⟨⟨?_, ?_⟩, ?_, ?_, ?_⟩
  · intro hph
    cases h : env.baseboard_heat_loss with
    | none => rfl
    | some hl => simp [heatLossPanel, h] at hph
  · intro h
    simp [heatLossPanel, h]
  · intro s hps
    cases hi : env.boiler_T_inlet with
    | none => simp [boilerTempPanel, hi] at hps
    | some ti =>
      cases ho : env.boiler_T_outlet with
      | none => simp [boilerTempPanel, hi, ho] at hps
      | some tout =>
        rw [boilerTempPanel, hi, ho] at hps
        cases hs : setpointRefs env with
        | none => simp [hs] at hps
        | some a =>
          cases hh : highLimitRefs env with
          | none => simp [hs, hh] at hps
          | some b => simp [hs, hh] at hps
  · intro h
    rcases h with h | h
    · simp [boilerTempPanel, h]
    · cases hi : env.boiler_T_inlet with
      | none => simp [boilerTempPanel, hi]
      | some ti => simp [boilerTempPanel, hi, h]
  · intro g hg
    rw [panelGrid] at hg
    cases h2 : boilerTempPanel env with
    | none => rw [h2] at hg; cases hg
    | some p2 =>
      cases h3 : flowPanel env with
      | none => rw [h2, h3] at hg; cases hg
      | some p3 =>
        rw [h2, h3] at hg
        injection hg with hg
        rw [← hg]
        rfl

/-- C1 witness: a run with only the inlet temperature resolved still composes
the full six-region grid. -/
theorem c1_witness :
    heatLossPanel envInletOnly =
      PanelOutcome.placeholder "Baseboard heat loss data not available" ∧
    ∃ g, panelGrid envInletOnly = some g ∧ g.length = 6 := by
  refine ⟨(c1_panel_terminal_states envInletOnly).1.mpr rfl, ?_⟩
  refine ⟨_, rfl, ?_⟩
  exact (c1_panel_terminal_states envInletOnly).2.2.2 _ rfl

/-- C4 counterexample: both flow series present with strictly negative
samples; the observed maximum of the plotted GPM series is `-15.85`, which is
not zero, yet the upper bound is the fallback `10` and not
`120%` of the maximum, because the code falls back whenever `max_gpm > 0`
fails, not only at exactly zero. -/
theorem c4_counterexample :
    envNegativeFlow.boiler_m_flow = some [-1] ∧
    envNegativeFlow.secondary_pump_m_flow = some [-2] ∧
    flowMaxGpm envNegativeFlow = some (-15.85) ∧
    ((-15.85 : ℚ) ≠ 0) ∧
    flowTop envNegativeFlow = some 10 ∧
    some (10 : ℚ) ≠ some ((-15.85) * 1.2) := by
  have hm : flowMaxGpm envNegativeFlow = some (-15.85) := by
    simp only [flowMaxGpm, gpmMaxOf, npMax, envNegativeFlow, env0, List.map_cons,
      List.map_nil, List.foldl]
    norm_num [max_def]
  refine ⟨rfl, rfl, hm, by norm_num, ?_, by norm_num⟩
  rw [flowTop, hm]
  show some (if (-15.85 : ℚ) > 0 then (-15.85 : ℚ) * 1.2 else 10) = some 10
  rw [if_neg (by norm_num)]

/-- C4 (amended): the flow and pump-speed scales run from a lower bound of
zero up to 120% of the observed maximum when that maximum is strictly
positive, and fall back to the fixed ceilings (10 for flow, 1000 for the
pump-speed overlay) when the maximum is zero or negative; the flow maximum is
the larger of the per-series maxima of the GPM-converted series, an absent
series contributing 0. -/
theorem c4_axis_bounds (env : Env) :
    (∀ m, flowMaxGpm env = some m → 0 < m → flowTop env = some (m * 1.2)) ∧
    (∀ m, flowMaxGpm env = some m → m ≤ 0 → flowTop env = some 10) ∧
    (∀ f sf a b, env.boiler_m_flow = some f → env.secondary_pump_m_flow = some sf →
        npMax (f.map (fun x => x * 15.85)) = some a →
        npMax (sf.map (fun x => x * 15.85)) = some b →
        flowMaxGpm env = some (max a b)) ∧
    (∀ f a, env.boiler_m_flow = some f → env.secondary_pump_m_flow = none →
        npMax (f.map (fun x => x * 15.85)) = some a →
        flowMaxGpm env = some (max a 0)) ∧
    (∀ p s mp ms, env.primary_pump_speed = some p → env.secondary_pump_speed = some s →
        npMax p = some mp → npMax s = some ms →
        (0 < max mp ms → pumpSpeedTop env = some (max mp ms * 1.2)) ∧
        (max mp ms ≤ 0 → pumpSpeedTop env = some 1000)) := by
  refine ⟨?_, ?_, ?_, ?_, ?_⟩
  · intro m hm h0
    rw [flowTop, hm]
    show some (if m > 0 then m * 1.2 else 10) = some (m * 1.2)
    rw [if_pos h0]
  · intro m hm hle
    rw [flowTop, hm]
    show some (if m > 0 then m * 1.2 else 10) = some 10
    rw [if_neg (not_lt.mpr hle)]
  · intro f sf a b hf hsf ha hb
    rw [flowMaxGpm, hf, hsf]
    simp [gpmMaxOf, ha, hb]
  · intro f a hf hsf ha
    rw [flowMaxGpm, hf, hsf]
    simp [gpmMaxOf, ha]
  · intro p s mp ms hp hs hmp hms
    have h : pumpSpeedTop env = some (if max mp ms > 0 then max mp ms * 1.2 else 1000) := by
      simp [pumpSpeedTop, hp, hs, hmp, hms]
    refine ⟨fun h0 => ?_, fun hle => ?_⟩
    · rw [h, if_pos h0]
    · rw [h, if_neg (not_lt.mpr hle)]

/-- C4 witness: a positive flow maximum scales to 120% of itself and resolved
pump speeds scale to 120% of their maximum. -/
theorem c4_witness :
    flowTop envPositiveFlow = some ((15.85 : ℚ) * 1.2) ∧
    pumpSpeedTop envPositiveFlow = some (max (2000 : ℚ) 1500 * 1.2) := by
  have hm : flowMaxGpm envPositiveFlow = some 15.85 := by
    simp only [flowMaxGpm, gpmMaxOf, npMax, envPositiveFlow, env0, List.map_cons,
      List.map_nil, List.foldl]
    norm_num [max_def]
  constructor
  · exact (c4_axis_bounds envPositiveFlow).1 15.85 hm (by norm_num)
  · exact ((c4_axis_bounds envPositiveFlow).2.2.2.2 [2000] [1500] 2000 1500
      rfl rfl rfl rfl).1 (by norm_num [lt_max_iff])

/-- C9: the reference constants of the boiler panels are read as the first
sample of their designated signal when present and drawn as flat reference
lines at the converted value; when the setpoint and high limit (or the
modulation bounds) are absent, the panel still renders the same curves with
the reference lines simply omitted. -/
theorem c9_reference_constants (env : Env) (ti tout : List ℚ)
    (hi : env.boiler_T_inlet = some ti) (ho : env.boiler_T_outlet = some tout) :
    (∀ sp sps hl hls, env.boiler_T_setpoint = some (sp :: sps) →
        env.boiler_high_limit = some (hl :: hls) →
        boilerTempPanel env = some (PanelOutcome.rendered
          [("Inlet", ti.map kelvin_to_fahrenheit), ("Outlet", tout.map kelvin_to_fahrenheit)]
          [("Setpoint", kelvin_to_fahrenheit sp), ("High Limit", kelvin_to_fahrenheit hl)])) ∧
    (env.boiler_T_setpoint = none → env.boiler_high_limit = none →
        boilerTempPanel env = some (PanelOutcome.rendered
          [("Inlet", ti.map kelvin_to_fahrenheit), ("Outlet", tout.map kelvin_to_fahrenheit)]
          [])) ∧
    (∀ q, env.boiler_Q = some q → env.q_min = none →
        ∃ cs, heatOutputPanel env = PanelOutcome.rendered cs [] ∧
          cs.head? = some ("Actual Output (kBTU/h)", q.map watts_to_kbtu)) ∧
    (∀ q a as b bs, env.boiler_Q = some q → env.q_min = some (a :: as) →
        env.q_max = some (b :: bs) →
        ∃ cs, heatOutputPanel env = PanelOutcome.rendered cs
          [("Q_min", watts_to_kbtu a), ("Q_max", watts_to_kbtu b)] ∧
          cs.head? = some ("Actual Output (kBTU/h)", q.map watts_to_kbtu)) := by
  refine ⟨?_, ?_, ?_, ?_⟩
  · intro sp sps hl hls hsp hhl
    rw [boilerTempPanel, hi, ho]
    simp [setpointRefs, highLimitRefs, hsp, hhl]
  · intro hsp hhl
    rw [boilerTempPanel, hi, ho]
    simp [setpointRefs, highLimitRefs, hsp, hhl]
  · intro q hq hqmin
    have h : heatOutputPanel env = PanelOutcome.rendered
        ([("Actual Output (kBTU/h)", q.map watts_to_kbtu)]
          ++ (match env.boiler_Q_modulated with
              | some m => [("Desired Output", m)]
              | none => [])
          ++ (match env.boiler_modulation_percent with
              | some p => [("Modulation %", p)]
              | none => [])) [] := by
      simp [heatOutputPanel, hq, hqmin]
    exact ⟨_, h, rfl⟩
  · intro q a as b bs hq hqmin hqmax
    have h : heatOutputPanel env = PanelOutcome.rendered
        ([("Actual Output (kBTU/h)", q.map watts_to_kbtu)]
          ++ (match env.boiler_Q_modulated with
              | some m => [("Desired Output", m)]
              | none => [])
          ++ (match env.boiler_modulation_percent with
              | some p => [("Modulation %", p)]
              | none => []))
        [("Q_min", watts_to_kbtu a), ("Q_max", watts_to_kbtu b)] := by
      simp [heatOutputPanel, hq, hqmin, hqmax]
    exact ⟨_, h, rfl⟩

/-- C9 witness: with all reference signals resolved, the boiler-temperature
panel draws the two curves plus the two flat reference lines at the converted
first samples. -/
theorem c9_witness :
    boilerTempPanel envRefConsts = some (PanelOutcome.rendered
      [("Inlet", ([310] : List ℚ).map kelvin_to_fahrenheit),
       ("Outlet", ([320] : List ℚ).map kelvin_to_fahrenheit)]
      [("Setpoint", kelvin_to_fahrenheit 322), ("High Limit", kelvin_to_fahrenheit 355)]) :=
  (c9_reference_constants envRefConsts [310] [320] rfl rfl).1 322 [] 355 [] rfl rfl

/-- C10: the baseboard-temperature panel and its summary group have a
two-level fallback: with both node temperatures resolved, the panel plots
inlet and outlet (room temperature appended only when present) and the
summary prints inlet/outlet averages and their delta; otherwise, with the
supply sensor resolved, the panel plots the supply temperature instead and
the summary prints the supply average and final temperature in place of the
inlet/outlet/delta lines. -/
theorem c10_baseboard_fallback (env : Env) :
    (∀ bi bo, env.baseboard_inlet_T = some bi → env.baseboard_outlet_T = some bo →
        baseboardTempPanel env = PanelOutcome.rendered
          ([("Baseboard Inlet", bi.map kelvin_to_fahrenheit),
            ("Baseboard Outlet", bo.map kelvin_to_fahrenheit)] ++ roomCurve env) [] ∧
        baseboardTempGroup env = some
          [SLine.bbAvgInlet (kelvin_to_fahrenheit (npMean bi)),
           SLine.bbAvgOutlet (kelvin_to_fahrenheit (npMean bo)),
           SLine.bbDeltaT (kelvin_to_fahrenheit (npMean bi) -
             kelvin_to_fahrenheit (npMean bo))]) ∧
    (∀ s slast, (env.baseboard_inlet_T = none ∨ env.baseboard_outlet_T = none) →
        env.baseboard_supply_T = some s → s.getLast? = some slast →
        baseboardTempPanel env = PanelOutcome.rendered
          (("Baseboard Supply", s.map kelvin_to_fahrenheit) :: roomCurve env) [] ∧
        baseboardTempGroup env = some
          [SLine.bbSupplyAvg (kelvin_to_fahrenheit (npMean s)),
           SLine.bbSupplyFinal (kelvin_to_fahrenheit slast)]) ∧
    (env.room_T = none → roomCurve env = []) ∧
    (∀ r, env.room_T = some r →
        roomCurve env = [("Room Temp", r.map kelvin_to_fahrenheit)]) := by
  refine ⟨?_, ?_, ?_, ?_⟩
  · intro bi bo hbi hbo
    constructor
    · rw [baseboardTempPanel, hbi, hbo]
    · rw [baseboardTempGroup, hbi, hbo]
  · intro s slast hmiss hsup hlast
    rcases hmiss with h | h
    · constructor
      · rw [baseboardTempPanel, h, hsup]
      · simp [baseboardTempGroup, h, hsup, hlast]
    · cases hbi : env.baseboard_inlet_T with
      | none =>
        constructor
        · rw [baseboardTempPanel, hbi, hsup]
        · simp [baseboardTempGroup, hbi, hsup, hlast]
      | some bi =>
        constructor
        · rw [baseboardTempPanel, hbi, h, hsup]
        · simp [baseboardTempGroup, hbi, h, hsup, hlast]
  · intro h
    rw [roomCurve, h]
  · intro r h
    rw [roomCurve, h]

/-- C10 witness: with both node temperatures and the room temperature
resolved, the panel plots inlet, outlet and room and the summary group prints
the averages and the delta. -/
theorem c10_witness :
    baseboardTempPanel envBaseboardNodes = PanelOutcome.rendered
      ([("Baseboard Inlet", ([330] : List ℚ).map kelvin_to_fahrenheit),
        ("Baseboard Outlet", ([325] : List ℚ).map kelvin_to_fahrenheit)] ++
        roomCurve envBaseboardNodes) [] ∧
    baseboardTempGroup envBaseboardNodes = some
      [SLine.bbAvgInlet (kelvin_to_fahrenheit (npMean [330])),
       SLine.bbAvgOutlet (kelvin_to_fahrenheit (npMean [325])),
       SLine.bbDeltaT (kelvin_to_fahrenheit (npMean [330]) -
         kelvin_to_fahrenheit (npMean [325]))] :=
  (c10_baseboard_fallback envBaseboardNodes).1 [330] [325] rfl rfl

theorem pyReplaceAux_nil_input (pat rep : List Char) (n : Nat) :
    pyReplaceAux pat rep n [] = [] := by
  cases n with
  | zero => rfl
  | succ k => rfl

theorem isPrefixOf_self (l : List Char) : l.isPrefixOf l = true := by
  induction l with
  | nil => rfl
  | cons c t ih => simp [List.isPrefixOf, ih]

/-- Replacing on `stem ++ pat` when no occurrence of `pat` starts before the
final position yields `stem ++ rep`. -/
theorem pyReplace_append_pattern (pat rep : List Char) (hpat : pat ≠ []) :
    ∀ stem : List Char,
      (∀ i, i < stem.length → ¬ pat.isPrefixOf ((stem ++ pat).drop i) = true) →
      pyReplace pat rep (stem ++ pat) = stem ++ rep := by
  intro stem
  induction stem with
  | nil =>
    intro _
    simp only [List.nil_append]
    show pyReplaceAux pat rep pat.length pat = rep
    cases pat with
    | nil => exact absurd rfl hpat
    | cons c pr =>
      simp only [List.length_cons, pyReplaceAux]
      rw [if_pos ⟨List.cons_ne_nil c pr, isPrefixOf_self (c :: pr)⟩]
      rw [show List.drop (pr.length + 1) (c :: pr) = [] from List.drop_length (c :: pr)]
      rw [pyReplaceAux_nil_input, List.append_nil]
  | cons c st ih =>
    intro H
    show pyReplaceAux pat rep ((c :: st) ++ pat).length ((c :: st) ++ pat) = c :: (st ++ rep)
    rw [List.cons_append, List.length_cons]
    simp only [pyReplaceAux]
    have h0 : ¬ (pat ≠ [] ∧ pat.isPrefixOf (c :: (st ++ pat)) = true) := by
      intro hc
      have hH := H 0 (Nat.succ_pos st.length)
      simp only [List.drop_zero, List.cons_append] at hH
      exact hH hc.2
    rw [if_neg h0]
    exact congrArg (c :: ·)
      (ih (fun i hi => by simpa using H (i + 1) (Nat.succ_lt_succ hi)))

/-- C6 counterexample: the output path is produced by substring replacement of
`.mat`, not by replacing the file extension: a `.dat` input maps to itself
(so the artifact path equals the input path), and a path containing `.mat`
twice gets both occurrences replaced. -/
theorem c6_counterexample :
    output_file "results.dat" = "results.dat" ∧
    ("results.dat" : String) ≠ "results_plots.png" ∧
    output_file "a.mat.mat" = "a_plots.png_plots.png" ∧
    ("a_plots.png_plots.png" : String) ≠ "a.mat_plots.png" := by
  refine ⟨by decide, by decide, by decide, by decide⟩

/-- C6 (amended): the output path is the input with every occurrence of the
substring `.mat` replaced by `_plots.png`; for an input consisting of a stem
with no occurrence of `.mat` followed by the `.mat` extension this is exactly
extension replacement, and the derivation is a pure function of the input
path, so re-running yields the same path. -/
theorem c6_output_path (stem : String)
    (h : ∀ i, i < stem.data.length →
        ¬ ".mat".data.isPrefixOf ((stem.data ++ ".mat".data).drop i) = true) :
    output_file (stem ++ ".mat") = stem ++ "_plots.png" := by
  cases stem with
  | mk l =>
    show String.mk (pyReplace ".mat".data "_plots.png".data (l ++ ".mat".data)) =
      String.mk (l ++ "_plots.png".data)
    exact congrArg String.mk
      (pyReplace_append_pattern ".mat".data "_plots.png".data (by decide) l h)

/-- C6 witness: the stem `results` contains no occurrence of `.mat`, and the
derived artifact path replaces the extension. -/
theorem c6_witness : output_file "results.mat" = "results_plots.png" :=
  c6_output_path "results" (by decide)

/-- Recognizer for the three lines of the boiler-temperature summary group. -/
def isBoilerTempLine : SLine → Bool
  | .boilerAvgInlet _ => true
  | .boilerAvgOutlet _ => true
  | .boilerDeltaT _ => true
  | _ => false

theorem heatGroup_no_btemp (env : Env) (g : List SLine) (hg : heatGroup env = some g) :
    ∀ x ∈ g, isBoilerTempLine x = false := by
  cases hq : env.boiler_Q with
  | none =>
    simp only [heatGroup, hq, Option.some.injEq] at hg
    subst hg
    simp
  | some q =>
    cases hm : npMax q with
    | none => simp [heatGroup, hq, hm] at hg
    | some m =>
      simp only [heatGroup, hq, hm, Option.some.injEq] at hg
      subst hg
      simp [isBoilerTempLine]

theorem baseboardTempGroup_no_btemp (env : Env) (g : List SLine)
    (hg : baseboardTempGroup env = some g) :
    ∀ x ∈ g, isBoilerTempLine x = false := by
  have hsup : ∀ hg2 : (match env.baseboard_supply_T with
      | none => some ([] : List SLine)
      | some s =>
        match s.getLast? with
        | none => none
        | some slast =>
          some [SLine.bbSupplyAvg (kelvin_to_fahrenheit (npMean s)),
                SLine.bbSupplyFinal (kelvin_to_fahrenheit slast)]) = some g,
      ∀ x ∈ g, isBoilerTempLine x = false := by
    intro hg2
    cases hsupp : env.baseboard_supply_T with
    | none =>
      simp only [hsupp, Option.some.injEq] at hg2
      subst hg2
      simp
    | some s =>
      cases hl : s.getLast? with
      | none => simp [hsupp, hl] at hg2
      | some slast =>
        simp only [hsupp, hl, Option.some.injEq] at hg2
        subst hg2
        simp [isBoilerTempLine]
  cases hbi : env.baseboard_inlet_T with
  | none =>
    rw [baseboardTempGroup, hbi] at hg
    exact hsup hg
  | some bi =>
    cases hbo : env.baseboard_outlet_T with
    | none =>
      rw [baseboardTempGroup, hbi, hbo] at hg
      exact hsup hg
    | some bo =>
      simp only [baseboardTempGroup, hbi, hbo, Option.some.injEq] at hg
      subst hg
      simp [isBoilerTempLine]

theorem roomGroup_no_btemp (env : Env) (g : List SLine) (hg : roomGroup env = some g) :
    ∀ x ∈ g, isBoilerTempLine x = false := by
  cases hr : env.room_T with
  | none =>
    simp only [roomGroup, hr, Option.some.injEq] at hg
    subst hg
    simp
  | some r =>
    cases h0 : r.head? with
    | none => simp [roomGroup, hr, h0] at hg
    | some r0 =>
      cases hl : r.getLast? with
      | none => simp [roomGroup, hr, h0, hl] at hg
      | some rl =>
        simp only [roomGroup, hr, h0, hl, Option.some.injEq] at hg
        subst hg
        simp [isBoilerTempLine]

theorem heatLossGroup_no_btemp (env : Env) :
    ∀ x ∈ heatLossGroup env, isBoilerTempLine x = false := by
  cases h : env.baseboard_heat_loss with
  | none => simp [heatLossGroup, h]
  | some hl => simp [heatLossGroup, h, isBoilerTempLine]

theorem flowGroup_no_btemp (env : Env) :
    ∀ x ∈ flowGroup env, isBoilerTempLine x = false := by
  cases h1 : env.boiler_m_flow with
  | none =>
    cases h2 : env.secondary_pump_m_flow with
    | none => simp [flowGroup, h1, h2]
    | some f2 => simp [flowGroup, h1, h2, isBoilerTempLine]
  | some f1 =>
    cases h2 : env.secondary_pump_m_flow with
    | none => simp [flowGroup, h1, h2, isBoilerTempLine]
    | some f2 => simp [flowGroup, h1, h2, isBoilerTempLine]

theorem boilerTempGroup_outlet_none (env : Env) (ho : env.boiler_T_outlet = none) :
    boilerTempGroup env = [] := by
  cases hi : env.boiler_T_inlet with
  | none => rw [boilerTempGroup, hi]
  | some ti => rw [boilerTempGroup, hi, ho]

/-- C7 counterexample: with `boiler.T_inlet` resolved and `boiler.T_outlet`
missing, the summary consists of the duration line alone: the average-inlet
line, though backed by a present signal, is omitted, contradicting the claim
that lines backed by present signals are still printed. -/
theorem c7_counterexample :
    envSummaryInletOnly.boiler_T_inlet = some [300] ∧
    envSummaryInletOnly.boiler_T_outlet = none ∧
    summaryLines envSummaryInletOnly = some [SLine.simTime 1 3600] ∧
    SLine.boilerAvgInlet (kelvin_to_fahrenheit (npMean [300])) ∉ [SLine.simTime 1 3600] := by
  refine ⟨rfl, rfl, ?_, by simp⟩
  have h1 : ([(3600 : ℚ)].getLast?) = some 3600 := rfl
  have h2 : (3600 : ℚ) / 3600 = 1 := by norm_num
  simp [summaryLines, envSummaryInletOnly, env0, heatGroup, baseboardTempGroup,
    roomGroup, boilerTempGroup, heatLossGroup, flowGroup, h1, h2]

/-- C7 (amended): the boiler-temperature summary group is all-or-nothing:
when the outlet signal is missing, none of its three lines appears in the
summary, the average-inlet line included even when the inlet signal is
present; the other metric groups still print their lines when their backing
signals are present, e.g. the baseboard heat-loss line. -/
theorem c7_summary_groups (env : Env) (lines : List SLine)
    (hs : summaryLines env = some lines) (ho : env.boiler_T_outlet = none) :
    (∀ v, SLine.boilerAvgInlet v ∉ lines) ∧
    (∀ v, SLine.boilerAvgOutlet v ∉ lines) ∧
    (∀ v, SLine.boilerDeltaT v ∉ lines) ∧
    (∀ hl, env.baseboard_heat_loss = some hl →
        SLine.bbHeatLoss (npMean hl * 3600 / (1000 * 1055.06)) ∈ lines) := by
  rcases ht : env.time.getLast? with _ | tLast
  · simp [summaryLines, ht] at hs
  rcases hhg : heatGroup env with _ | hg
  · simp [summaryLines, ht, hhg] at hs
  rcases hbg : baseboardTempGroup env with _ | bg
  · simp [summaryLines, ht, hhg, hbg] at hs
  rcases hrg : roomGroup env with _ | rg
  · simp [summaryLines, ht, hhg, hbg, hrg] at hs
  simp only [summaryLines, ht, hhg, hbg, hrg, Option.some.injEq] at hs
  subst hs
  rw [boilerTempGroup_outlet_none env ho]
  have hall : ∀ x ∈ hg ++ [] ++ bg ++ heatLossGroup env ++ rg ++ flowGroup env,
      isBoilerTempLine x = false := by
    intro x hx
    simp only [List.append_nil, List.mem_append] at hx
    rcases hx with (((hx | hx) | hx) | hx) | hx
    · exact heatGroup_no_btemp env hg hhg x hx
    · exact baseboardTempGroup_no_btemp env bg hbg x hx
    · exact heatLossGroup_no_btemp env x hx
    · exact roomGroup_no_btemp env rg hrg x hx
    · exact flowGroup_no_btemp env x hx
  refine ⟨?_, ?_, ?_, ?_⟩
  · intro v hv
    rcases List.mem_cons.mp hv with h | h
    · exact SLine.noConfusion h
    · have hx := hall _ h
      simp [isBoilerTempLine] at hx
  · intro v hv
    rcases List.mem_cons.mp hv with h | h
    · exact SLine.noConfusion h
    · have hx := hall _ h
      simp [isBoilerTempLine] at hx
  · intro v hv
    rcases List.mem_cons.mp hv with h | h
    · exact SLine.noConfusion h
    · have hx := hall _ h
      simp [isBoilerTempLine] at hx
  · intro hl hhl
    refine List.mem_cons_of_mem _ ?_
    refine List.mem_append_left _ ?_
    refine List.mem_append_left _ ?_
    refine List.mem_append_right _ ?_
    simp [heatLossGroup, hhl]

/-- C7 witness: with the outlet missing but the heat-loss signal present, the
summary still carries the heat-loss line. -/
theorem c7_witness :
    SLine.bbHeatLoss (npMean [2] * 3600 / (1000 * 1055.06)) ∈
      [SLine.simTime 1 3600, SLine.bbHeatLoss (npMean [2] * 3600 / (1000 * 1055.06))] := by
  have h1 : ([(3600 : ℚ)].getLast?) = some 3600 := rfl
  have h2 : (3600 : ℚ) / 3600 = 1 := by norm_num
  have hsum : summaryLines envSummaryHeatLoss =
      some [SLine.simTime 1 3600,
            SLine.bbHeatLoss (npMean [2] * 3600 / (1000 * 1055.06))] := by
    simp [summaryLines, envSummaryHeatLoss, env0, heatGroup, baseboardTempGroup,
      roomGroup, boilerTempGroup, heatLossGroup, flowGroup, h1, h2]
  exact (c7_summary_groups envSummaryHeatLoss _ hsum rfl).2.2.2 [2] rfl

end PlotResults
